import Mathlib

/-!
Verification of the adaptive playback and telemetry engine of the
video-stream front end (the `VideoPlayer` component).  The definitions
below are a shallow embedding of the component's pure logic: the
resource-timing classifier, the per-session telemetry state and its
event handlers, the metric payload construction and dispatch guard, and
the manual quality-switch policy.  Browser-supplied data (event
timestamps, element readiness, matched resource-timing entries, header
classification results) appear as parameters of the embedded handlers.
-/

namespace VideoStreamFE

/-- Model of JavaScript `Math.round` on the rational timestamps used by
the player: round half up. -/
def jsRound (q : ℚ) : Int := Int.floor (q + 1 / 2)

/-- Truthiness of an optional timestamp, as tested by `if (!x)` in the
source: absent and the value `0` are both falsy. -/
def jsTruthy : Option ℚ → Bool
  | none => false
  | some t => t != 0

/-- Fields of a browser `PerformanceResourceTiming` entry read by the
player (sizes in bytes). -/
structure PerformanceResourceTiming where
  transferSize : Nat
  encodedBodySize : Nat
  decodedBodySize : Nat
  nextHopProtocol : String
deriving DecidableEq

/-- Embedding of `classifyDeliverySource`: the fallback size-heuristic
classifier.  The source compares `transferSize / encodedBodySize < 1.05`;
with the integer byte counts in play this is the rational comparison
`20 * transferSize < 21 * encodedBodySize`. -/
def classifyDeliverySource : Option PerformanceResourceTiming → Option String
  | none => none
  | some entry =>
    if entry.transferSize = 0 ∧ 0 < entry.decodedBodySize then
      some "disk_cache"
    else if 0 < entry.transferSize ∧ 0 < entry.encodedBodySize then
      if 20 * entry.transferSize < 21 * entry.encodedBodySize then some "edge_cache"
      else some "origin"
    else none

/-- C5 counterexample states refuting the claimed classifier behavior. -/
def entryNoEncoded : PerformanceResourceTiming :=
  { transferSize := 100, encodedBodySize := 0, decodedBodySize := 0, nextHopProtocol := "h2" }

def entrySmallTransfer : PerformanceResourceTiming :=
  { transferSize := 10, encodedBodySize := 1000, decodedBodySize := 0, nextHopProtocol := "h2" }

/-- C5 counterexample: the claim says every nonzero transfer size that is
not within 5% of the encoded body size classifies as `origin`, and that
`edge_cache` arises only when the transfer size is within 5% of the
encoded body size.  The code instead returns no classification for a
nonzero transfer with a zero encoded body size, and returns `edge_cache`
for a transfer of 10 bytes against an encoded body of 1000 bytes (far
below, not within 5%). -/
theorem classify_delivery_counterexample :
    classifyDeliverySource (some entryNoEncoded) = none ∧
    classifyDeliverySource (some entrySmallTransfer) = some "edge_cache" := by
  decide

/-- C5 amended: exact characterization of the fallback classifier.  It
returns `disk_cache` iff the transfer size is zero and the decoded body
size positive; with both transfer and encoded sizes positive it returns
`edge_cache` iff the transfer size is below 1.05 times the encoded body
size and `origin` otherwise; it returns no classification iff the entry
is absent, both transfer and decoded sizes are zero, or the transfer is
positive but the encoded body size is zero.  The function is total by
construction and never raises. -/
theorem classify_delivery_characterization (e : PerformanceResourceTiming) :
    classifyDeliverySource none = none ∧
    (classifyDeliverySource (some e) = some "disk_cache" ↔
      e.transferSize = 0 ∧ 0 < e.decodedBodySize) ∧
    (classifyDeliverySource (some e) = some "edge_cache" ↔
      0 < e.transferSize ∧ 0 < e.encodedBodySize ∧
        20 * e.transferSize < 21 * e.encodedBodySize) ∧
    (classifyDeliverySource (some e) = some "origin" ↔
      0 < e.transferSize ∧ 0 < e.encodedBodySize ∧
        21 * e.encodedBodySize ≤ 20 * e.transferSize) ∧
    (classifyDeliverySource (some e) = none ↔
      (e.transferSize = 0 ∧ e.decodedBodySize = 0) ∨
      (0 < e.transferSize ∧ e.encodedBodySize = 0)) := by
  obtain ⟨t, en, de, nhp⟩ := e
  refine ⟨rfl, ?_, ?_, ?_, ?_⟩ <;>
    · simp only [classifyDeliverySource]
      split_ifs with h1 h2 h3 <;> simp_all <;> omega

/-- Model of JavaScript `String.prototype.includes` (substring test). -/
def jsIncludes (s sub : String) : Bool := decide (sub.toList <:+: s.toList)

/-- Embedding of `getDeviceType`: user-agent keyword classification.  The
argument is optional and the empty string is falsy, matching the source's
`if (!userAgent) return undefined`. -/
def getDeviceType (userAgent : Option String) : Option String :=
  match userAgent with
  | none => none
  | some ua0 =>
    if ua0 = "" then none
    else
      let ua := ua0.toLower
      if jsIncludes ua "mobile" || jsIncludes ua "android" ||
          jsIncludes ua "iphone" || jsIncludes ua "ipad" then some "mobile"
      else if jsIncludes ua "smart-tv" || jsIncludes ua "appletv" ||
          jsIncludes ua "hbbtv" then some "tv"
      else some "desktop"

/-- Embedding of the `PlaybackMetricState` record held in
`playbackMetricsRef` (one per session). -/
structure PlaybackMetricState where
  sessionId : String
  mountTime : Option ℚ
  manifestRequestedAt : Option ℚ
  manifestLoadedAt : Option ℚ
  playbackRequestedAt : Option ℚ
  firstFrameAt : Option ℚ
  bufferingEvents : Nat
  deliverySource : Option String
  bandwidthEstimateMbps : Option ℚ
  transferSize : Option Nat
  encodedBodySize : Option Nat
  nextHopProtocol : Option String
  metricsSent : Bool
deriving DecidableEq

/-- The fresh per-session state installed at mount and on every source
change: only `sessionId`, `mountTime`, a zero counter and a cleared
`metricsSent` flag. -/
def initialMetricState (sid : String) (mount : ℚ) : PlaybackMetricState :=
  { sessionId := sid
    mountTime := some mount
    manifestRequestedAt := none
    manifestLoadedAt := none
    playbackRequestedAt := none
    firstFrameAt := none
    bufferingEvents := 0
    deliverySource := none
    bandwidthEstimateMbps := none
    transferSize := none
    encodedBodySize := none
    nextHopProtocol := none
    metricsSent := false }

/-- The parts of `navigator.connection` read by the payload builder. -/
structure ConnectionInfo where
  effectiveType : Option String
  downlink : Option ℚ
  rtt : Option ℚ
deriving DecidableEq

/-- The parts of the browser `navigator` read by the telemetry code.
`hasSendBeacon` models `typeof navigator.sendBeacon === "function"`. -/
structure NavigatorEnv where
  userAgent : String
  language : String
  connection : Option ConnectionInfo
  hasSendBeacon : Bool
deriving DecidableEq

/-- Environment for telemetry: `none` models
`typeof navigator === "undefined"`. -/
abbrev Env := Option NavigatorEnv

/-- Embedding of the `PlaybackMetricPayload` record assembled by
`constructPayload` (benchmark metadata flattened into the record). -/
structure PlaybackMetricPayload where
  sessionId : String
  reason : String
  manifestLatencyMs : Option Int
  transferSizeBytes : Option Nat
  encodedBodySizeBytes : Option Nat
  nextHopProtocol : Option String
  connectionType : Option String
  deliverySource : Option String
  userAgent : String
  language : String
  downlink : Option ℚ
  rtt : Option ℚ
  videoId : Option String
  deviceType : Option String
  bandwidthMbps : Option ℚ
  firstFrameMs : Option Int
  totalStartupMs : Option Int
  bufferingEvents : Nat
deriving DecidableEq

/-- Embedding of `constructPayload`.  Returns `none` exactly when the
source returns `undefined`: when `firstFrameAt` is unset (or the falsy
timestamp `0`), or when no `navigator` exists. -/
def constructPayload (env : Env) (videoId : Option String)
    (state : PlaybackMetricState) (reason : String) : Option PlaybackMetricPayload :=
  match state.firstFrameAt with
  | none => none
  | some ff =>
    if ff = 0 then none
    else
      let firstFrameMs : Option Int := state.mountTime.map fun mt => jsRound (ff - mt)
      let startupMs : Option Int :=
        match state.playbackRequestedAt with
        | some pr => some (jsRound (ff - pr))
        | none => firstFrameMs
      match env with
      | none => none
      | some nav =>
        let connection := nav.connection
        some
          { sessionId := state.sessionId
            reason := reason
            manifestLatencyMs :=
              match state.manifestLoadedAt, state.manifestRequestedAt with
              | some l, some r => some (jsRound (l - r))
              | _, _ => none
            transferSizeBytes := state.transferSize
            encodedBodySizeBytes := state.encodedBodySize
            nextHopProtocol := state.nextHopProtocol
            connectionType := connection.bind (·.effectiveType)
            deliverySource := state.deliverySource
            userAgent := nav.userAgent
            language := nav.language
            downlink := connection.bind (·.downlink)
            rtt := connection.bind (·.rtt)
            videoId := videoId
            deviceType := getDeviceType (some nav.userAgent)
            bandwidthMbps :=
              (state.bandwidthEstimateMbps.orElse fun _ => connection.bind (·.downlink))
            firstFrameMs := firstFrameMs
            totalStartupMs := startupMs
            bufferingEvents := state.bufferingEvents }

/-- Delivery mechanism chosen by `sendPlaybackMetrics`: the page-teardown
beacon primitive or the ordinary asynchronous API client call. -/
inductive DispatchMethod where
  | beacon
  | api
deriving DecidableEq

/-- Embedding of `sendPlaybackMetrics`: returns the updated session state
and the dispatched payload (with its delivery mechanism), if any.  The
guard returns unchanged when `metricsSent` is already true or when no
payload is constructible; otherwise it sets `metricsSent` and dispatches
exactly one payload. -/
def sendPlaybackMetrics (env : Env) (videoId : Option String) (preferBeacon : Bool)
    (state : PlaybackMetricState) (reason : String) :
    PlaybackMetricState × Option (PlaybackMetricPayload × DispatchMethod) :=
  if state.metricsSent then (state, none)
  else
    match constructPayload env videoId state reason with
    | none => (state, none)
    | some payload =>
      let method : DispatchMethod :=
        match env with
        | some nav => if preferBeacon && nav.hasSendBeacon then .beacon else .api
        | none => .api
      ({ state with metricsSent := true }, some (payload, method))

/-- Embedding of the body of `captureResourceTiming`.  The browser-side
selection of the matching entry (filter by URL prefix, sort by most
recent `responseEnd`) is environment data and is passed in as the
already-selected `rtMatch`; `none` covers both the early-return guards
and the no-match case, in which the session state is untouched. -/
def captureResourceTiming (rtMatch : Option PerformanceResourceTiming)
    (state : PlaybackMetricState) : PlaybackMetricState :=
  match rtMatch with
  | none => state
  | some m =>
    { state with
      transferSize := some m.transferSize
      encodedBodySize := some m.encodedBodySize
      nextHopProtocol := some m.nextHopProtocol
      deliverySource := state.deliverySource.orElse fun _ => classifyDeliverySource (some m) }

/-- Model of `Number((bwEstimate / 1_000_000).toFixed(2))` for a positive
bandwidth estimate: divide to Mbps and round to two decimals (half up,
as `toFixed` does for positive values). -/
def bandwidthToMbps (bw : ℚ) : ℚ := (jsRound (bw / 1000000 * 100) : ℚ) / 100

/-- The component state pieces owned by the playback state machine that
the verified handlers write. -/
structure PlayerUIState where
  isPlaying : Bool
  isBuffering : Bool
  isLoading : Bool
  error : String
deriving DecidableEq

/-- Combined per-session model state: the telemetry record plus the UI
state-machine fields. -/
structure PlayerState where
  metrics : PlaybackMetricState
  ui : PlayerUIState
deriving DecidableEq

/-- The UI state at mount: not playing, not buffering, loading, no
error. -/
def initialUIState : PlayerUIState :=
  { isPlaying := false, isBuffering := false, isLoading := true, error := "" }

/-- A fresh session: `initialMetricState` plus the initial UI state. -/
def initPlayerState (sid : String) (mount : ℚ) : PlayerState :=
  { metrics := initialMetricState sid mount, ui := initialUIState }

/-- Signals driving the embedded handlers.  Media-element events carry
the data the handler reads from the element or the clock (`t` is the
`now()` reading, `paused`/`readyState` the element fields); runtime
events carry the extracted header classification and the matched
resource-timing entry; the five dispatch triggers carry nothing.
`sourceChangeFlush` is the flush of the current session performed by the
source-change effect before it installs a fresh session. -/
inductive PlayerSignal where
  | loadStart (t : ℚ)
  | loadedMetadata (t : ℚ) (rtMatch : Option PerformanceResourceTiming)
  | play (t : ℚ)
  | pause
  | playing (t : ℚ)
  | waiting (paused : Bool) (readyState : Nat)
  | stalled (paused : Bool) (readyState : Nat)
  | canPlay (rtMatch : Option PerformanceResourceTiming)
  | manifestLoading (t : ℚ)
  | manifestLoaded (t : ℚ) (delivery : Option String) (rtMatch : Option PerformanceResourceTiming)
  | fragLoaded (bwEstimate : Option ℚ) (delivery : Option String)
  | ended
  | errorSignal
  | beforeUnload
  | unmount
  | sourceChangeFlush
deriving DecidableEq

/-- One step of the embedded player: dispatch a signal to the handler
the component registers for it, returning the new state and the metric
payload dispatched by that step, if any.  Each arm is the translation of
the corresponding handler in the source. -/
def step (env : Env) (videoId : Option String) (s : PlayerState) :
    PlayerSignal → PlayerState × Option (PlaybackMetricPayload × DispatchMethod)
  | .loadStart t =>
    ({ s with metrics :=
        { s.metrics with
          manifestRequestedAt := some (s.metrics.manifestRequestedAt.getD t) } }, none)
  | .loadedMetadata t rtMatch =>
    ({ s with
        ui := { s.ui with isLoading := false }
        metrics := captureResourceTiming rtMatch
          { s.metrics with manifestLoadedAt := some (s.metrics.manifestLoadedAt.getD t) } },
      none)
  | .play t =>
    ({ s with
        ui := { s.ui with isPlaying := true, isBuffering := false }
        metrics :=
          { s.metrics with
            playbackRequestedAt := some (s.metrics.playbackRequestedAt.getD t) } }, none)
  | .pause => ({ s with ui := { s.ui with isPlaying := false } }, none)
  | .playing t =>
    ({ s with
        ui := { s.ui with isBuffering := false }
        metrics :=
          { s.metrics with firstFrameAt := some (s.metrics.firstFrameAt.getD t) } }, none)
  | .waiting paused readyState =>
    if !paused && readyState < 3 then
      ({ s with
          ui := { s.ui with isBuffering := true }
          metrics :=
            { s.metrics with bufferingEvents := s.metrics.bufferingEvents + 1 } }, none)
    else (s, none)
  | .stalled paused _readyState =>
    if !paused then
      ({ s with
          ui := { s.ui with isBuffering := true }
          metrics :=
            { s.metrics with bufferingEvents := s.metrics.bufferingEvents + 1 } }, none)
    else (s, none)
  | .canPlay rtMatch =>
    ({ s with
        ui := { s.ui with isBuffering := false }
        metrics := captureResourceTiming rtMatch s.metrics }, none)
  | .manifestLoading t =>
    ({ s with metrics := { s.metrics with manifestRequestedAt := some t } }, none)
  | .manifestLoaded t delivery rtMatch =>
    let m := { s.metrics with manifestLoadedAt := some t }
    let m :=
      match delivery with
      | some d => { m with deliverySource := some d }
      | none => m
    ({ s with metrics := captureResourceTiming rtMatch m }, none)
  | .fragLoaded bwEstimate delivery =>
    let m :=
      match bwEstimate with
      | some bw =>
        if 0 < bw then
          { s.metrics with bandwidthEstimateMbps := some (bandwidthToMbps bw) }
        else s.metrics
      | none => s.metrics
    let m :=
      if m.deliverySource = none then
        match delivery with
        | some d => { m with deliverySource := some d }
        | none => m
      else m
    ({ s with metrics := m }, none)
  | .ended =>
    let r := sendPlaybackMetrics env videoId false s.metrics "ended"
    ({ s with ui := { s.ui with isPlaying := false }, metrics := r.1 }, r.2)
  | .errorSignal =>
    let r := sendPlaybackMetrics env videoId false s.metrics "error"
    ({ s with ui := { s.ui with error := "Playback error" }, metrics := r.1 }, r.2)
  | .beforeUnload =>
    if s.metrics.metricsSent then (s, none)
    else if !jsTruthy s.metrics.firstFrameAt then (s, none)
    else
      let r := sendPlaybackMetrics env videoId true s.metrics "beforeunload"
      ({ s with metrics := r.1 }, r.2)
  | .unmount =>
    if !s.metrics.metricsSent && jsTruthy s.metrics.firstFrameAt then
      let r := sendPlaybackMetrics env videoId true s.metrics "unmount"
      ({ s with metrics := r.1 }, r.2)
    else (s, none)
  | .sourceChangeFlush =>
    if jsTruthy s.metrics.firstFrameAt && !s.metrics.metricsSent then
      let r := sendPlaybackMetrics env videoId false s.metrics "source_change"
      ({ s with metrics := r.1 }, r.2)
    else (s, none)

/-- Run a trace of signals. -/
def run (env : Env) (videoId : Option String) (s : PlayerState) :
    List PlayerSignal → PlayerState
  | [] => s
  | sig :: rest => run env videoId (step env videoId s sig).1 rest

/-- Number of metric payloads dispatched along a trace. -/
def emitCount (env : Env) (videoId : Option String) (s : PlayerState) :
    List PlayerSignal → Nat
  | [] => 0
  | sig :: rest =>
    (if (step env videoId s sig).2.isSome then 1 else 0) +
      emitCount env videoId (step env videoId s sig).1 rest

/-- Signals that fire the `playing` handler (the only writer of
`firstFrameAt`). -/
def isPlayingSignal : PlayerSignal → Bool
  | .playing _ => true
  | _ => false

@[simp]
lemma captureResourceTiming_metricsSent (rt : Option PerformanceResourceTiming)
    (m : PlaybackMetricState) :
    (captureResourceTiming rt m).metricsSent = m.metricsSent := by
  cases rt <;> rfl

@[simp]
lemma captureResourceTiming_firstFrameAt (rt : Option PerformanceResourceTiming)
    (m : PlaybackMetricState) :
    (captureResourceTiming rt m).firstFrameAt = m.firstFrameAt := by
  cases rt <;> rfl

@[simp]
lemma captureResourceTiming_playbackRequestedAt (rt : Option PerformanceResourceTiming)
    (m : PlaybackMetricState) :
    (captureResourceTiming rt m).playbackRequestedAt = m.playbackRequestedAt := by
  cases rt <;> rfl

@[simp]
lemma captureResourceTiming_manifestRequestedAt (rt : Option PerformanceResourceTiming)
    (m : PlaybackMetricState) :
    (captureResourceTiming rt m).manifestRequestedAt = m.manifestRequestedAt := by
  cases rt <;> rfl

@[simp]
lemma captureResourceTiming_manifestLoadedAt (rt : Option PerformanceResourceTiming)
    (m : PlaybackMetricState) :
    (captureResourceTiming rt m).manifestLoadedAt = m.manifestLoadedAt := by
  cases rt <;> rfl

@[simp]
lemma captureResourceTiming_bufferingEvents (rt : Option PerformanceResourceTiming)
    (m : PlaybackMetricState) :
    (captureResourceTiming rt m).bufferingEvents = m.bufferingEvents := by
  cases rt <;> rfl

lemma sendPlaybackMetrics_of_sent (env : Env) (vid : Option String) (pb : Bool)
    (m : PlaybackMetricState) (r : String) (h : m.metricsSent = true) :
    sendPlaybackMetrics env vid pb m r = (m, none) := by
  unfold sendPlaybackMetrics
  simp [h]

lemma sendPlaybackMetrics_shape (env : Env) (vid : Option String) (pb : Bool)
    (m : PlaybackMetricState) (r : String) :
    sendPlaybackMetrics env vid pb m r = (m, none) ∨
      (m.metricsSent = false ∧
        (sendPlaybackMetrics env vid pb m r).1 = { m with metricsSent := true } ∧
        (sendPlaybackMetrics env vid pb m r).2.isSome = true) := by
  unfold sendPlaybackMetrics
  cases h : m.metricsSent
  · cases hc : constructPayload env vid m r
    · left; simp [h, hc]
    · right; simp [h, hc]
  · left; simp [h]

@[simp]
lemma sendPlaybackMetrics_firstFrameAt (env : Env) (vid : Option String) (pb : Bool)
    (m : PlaybackMetricState) (r : String) :
    (sendPlaybackMetrics env vid pb m r).1.firstFrameAt = m.firstFrameAt := by
  rcases sendPlaybackMetrics_shape env vid pb m r with h | ⟨-, h, -⟩ <;> simp [h]

@[simp]
lemma sendPlaybackMetrics_playbackRequestedAt (env : Env) (vid : Option String) (pb : Bool)
    (m : PlaybackMetricState) (r : String) :
    (sendPlaybackMetrics env vid pb m r).1.playbackRequestedAt = m.playbackRequestedAt := by
  rcases sendPlaybackMetrics_shape env vid pb m r with h | ⟨-, h, -⟩ <;> simp [h]

@[simp]
lemma sendPlaybackMetrics_manifestRequestedAt (env : Env) (vid : Option String) (pb : Bool)
    (m : PlaybackMetricState) (r : String) :
    (sendPlaybackMetrics env vid pb m r).1.manifestRequestedAt = m.manifestRequestedAt := by
  rcases sendPlaybackMetrics_shape env vid pb m r with h | ⟨-, h, -⟩ <;> simp [h]

@[simp]
lemma sendPlaybackMetrics_manifestLoadedAt (env : Env) (vid : Option String) (pb : Bool)
    (m : PlaybackMetricState) (r : String) :
    (sendPlaybackMetrics env vid pb m r).1.manifestLoadedAt = m.manifestLoadedAt := by
  rcases sendPlaybackMetrics_shape env vid pb m r with h | ⟨-, h, -⟩ <;> simp [h]

@[simp]
lemma sendPlaybackMetrics_bufferingEvents (env : Env) (vid : Option String) (pb : Bool)
    (m : PlaybackMetricState) (r : String) :
    (sendPlaybackMetrics env vid pb m r).1.bufferingEvents = m.bufferingEvents := by
  rcases sendPlaybackMetrics_shape env vid pb m r with h | ⟨-, h, -⟩ <;> simp [h]

lemma sendPlaybackMetrics_emit_sent (env : Env) (vid : Option String) (pb : Bool)
    (m : PlaybackMetricState) (r : String)
    (h : (sendPlaybackMetrics env vid pb m r).2.isSome = true) :
    (sendPlaybackMetrics env vid pb m r).1.metricsSent = true := by
  rcases sendPlaybackMetrics_shape env vid pb m r with hs | ⟨-, hs, -⟩ <;> simp [hs] at h ⊢

lemma sendPlaybackMetrics_of_firstFrame_none (env : Env) (vid : Option String) (pb : Bool)
    (m : PlaybackMetricState) (r : String) (h : m.firstFrameAt = none) :
    sendPlaybackMetrics env vid pb m r = (m, none) := by
  unfold sendPlaybackMetrics constructPayload
  rw [h]
  cases hs : m.metricsSent <;> simp [hs]

lemma step_of_sent (env : Env) (vid : Option String) (s : PlayerState) (sig : PlayerSignal)
    (h : s.metrics.metricsSent = true) :
    (step env vid s sig).1.metrics.metricsSent = true ∧ (step env vid s sig).2 = none := by
  cases sig <;>
    · simp only [step]
      repeat' split
      all_goals simp_all [sendPlaybackMetrics_of_sent]

lemma step_emit_sent (env : Env) (vid : Option String) (s : PlayerState) (sig : PlayerSignal)
    (h : (step env vid s sig).2.isSome = true) :
    (step env vid s sig).1.metrics.metricsSent = true := by
  cases sig <;> simp only [step] at h ⊢ <;> (repeat' split at h) <;>
    simp_all [sendPlaybackMetrics_emit_sent]

lemma emitCount_of_sent (env : Env) (vid : Option String) (tr : List PlayerSignal) :
    ∀ s : PlayerState, s.metrics.metricsSent = true → emitCount env vid s tr = 0 := by
  induction tr with
  | nil => intro s _; rfl
  | cons sig rest ih =>
    intro s h
    obtain ⟨h1, h2⟩ := step_of_sent env vid s sig h
    simp [emitCount, h2, ih _ h1]

lemma emitCount_le_one (env : Env) (vid : Option String) (tr : List PlayerSignal) :
    ∀ s : PlayerState, emitCount env vid s tr ≤ 1 := by
  induction tr with
  | nil => intro s; simp [emitCount]
  | cons sig rest ih =>
    intro s
    by_cases h : (step env vid s sig).2.isSome = true
    · have hs := step_emit_sent env vid s sig h
      simp [emitCount, h, emitCount_of_sent env vid rest _ hs]
    · simp only [emitCount, h, if_false]
      simpa using ih (step env vid s sig).1

lemma step_firstFrame_none (env : Env) (vid : Option String) (s : PlayerState)
    (sig : PlayerSignal) (hff : s.metrics.firstFrameAt = none)
    (hsig : isPlayingSignal sig = false) :
    (step env vid s sig).1.metrics.firstFrameAt = none ∧ (step env vid s sig).2 = none := by
  cases sig <;>
    · simp only [step]
      repeat' split
      all_goals
        simp_all [isPlayingSignal, jsTruthy, sendPlaybackMetrics_of_firstFrame_none]

lemma run_no_playing (env : Env) (vid : Option String) (tr : List PlayerSignal)
    (hnp : ∀ sig ∈ tr, isPlayingSignal sig = false) :
    ∀ s : PlayerState, s.metrics.firstFrameAt = none →
      (run env vid s tr).metrics.firstFrameAt = none ∧ emitCount env vid s tr = 0 := by
  induction tr with
  | nil => intro s hff; exact ⟨hff, rfl⟩
  | cons sig rest ih =>
    intro s hff
    have hsig : isPlayingSignal sig = false := hnp sig (List.mem_cons_self sig rest)
    obtain ⟨h1, h2⟩ := step_firstFrame_none env vid s sig hff hsig
    have hrest := ih (fun x hx => hnp x (List.mem_cons_of_mem sig hx)) _ h1
    simp [run, emitCount, h2, hrest.1, hrest.2]

/-- C1: per session, `metricsSent` flips to true at most once (once set it
stays set and blocks all further dispatch), at most one payload is ever
dispatched along any signal trace, and a session in which `firstFrameAt`
was never written (no `playing` signal ever fired) dispatches nothing and
cannot even construct a payload under any trigger reason. -/
theorem metrics_dispatched_at_most_once (env : Env) (vid : Option String)
    (s : PlayerState) (sid : String) (mount : ℚ) (tr tr2 : List PlayerSignal)
    (hnp : ∀ sig ∈ tr2, isPlayingSignal sig = false) :
    emitCount env vid s tr ≤ 1 ∧
    (s.metrics.metricsSent = true →
      ∀ sig, (step env vid s sig).1.metrics.metricsSent = true ∧
        (step env vid s sig).2 = none) ∧
    emitCount env vid (initPlayerState sid mount) tr2 = 0 ∧
    (∀ reason,
      constructPayload env vid (run env vid (initPlayerState sid mount) tr2).metrics reason =
        none) := by
  have hinit : (initPlayerState sid mount).metrics.firstFrameAt = none := rfl
  have hrun := run_no_playing env vid tr2 hnp (initPlayerState sid mount) hinit
  refine ⟨emitCount_le_one env vid tr s, fun h sig => step_of_sent env vid s sig h,
    hrun.2, fun reason => ?_⟩
  unfold constructPayload
  rw [hrun.1]

/-- Concrete navigator environment used by witnesses. -/
def navUA : NavigatorEnv :=
  { userAgent := "ua", language := "en", connection := none, hasSendBeacon := true }

/-- C1 witness: a concrete session trace in which a first frame renders
and several terminal triggers fire, and a second trace with no `playing`
signal. -/
theorem metrics_dispatched_at_most_once_witness :
    emitCount (some navUA) none (initPlayerState "a" 0)
      [.playing 5, .ended, .errorSignal, .unmount] ≤ 1 ∧
    ((initPlayerState "a" 0).metrics.metricsSent = true →
      ∀ sig,
        (step (some navUA) none (initPlayerState "a" 0) sig).1.metrics.metricsSent = true ∧
        (step (some navUA) none (initPlayerState "a" 0) sig).2 = none) ∧
    emitCount (some navUA) none (initPlayerState "b" 0)
      [.loadStart 1, .loadedMetadata 2 none, .play 3, .ended, .unmount] = 0 ∧
    (∀ reason,
      constructPayload (some navUA) none
        (run (some navUA) none (initPlayerState "b" 0)
          [.loadStart 1, .loadedMetadata 2 none, .play 3, .ended, .unmount]).metrics
        reason = none) :=
  metrics_dispatched_at_most_once (some navUA) none (initPlayerState "a" 0) "b" 0
    [.playing 5, .ended, .errorSignal, .unmount]
    [.loadStart 1, .loadedMetadata 2 none, .play 3, .ended, .unmount] (by decide)

lemma constructPayload_env_none (vid : Option String) (m : PlaybackMetricState)
    (r : String) : constructPayload none vid m r = none := by
  unfold constructPayload
  cases m.firstFrameAt with
  | none => rfl
  | some ff => by_cases hf : ff = 0 <;> simp [hf]

lemma sendPlaybackMetrics_dispatches (env : Env) (vid : Option String) (pb : Bool)
    (m : PlaybackMetricState) (r : String)
    (hs : m.metricsSent = false) (hc : (constructPayload env vid m r).isSome = true) :
    (sendPlaybackMetrics env vid pb m r).1 = { m with metricsSent := true } ∧
    (sendPlaybackMetrics env vid pb m r).2.isSome = true := by
  obtain ⟨p, hp⟩ := Option.isSome_iff_exists.mp hc
  unfold sendPlaybackMetrics
  simp [hs, hp]

lemma constructPayload_isSome (nav : NavigatorEnv) (vid : Option String)
    (m : PlaybackMetricState) (r : String) (t : ℚ)
    (hff : m.firstFrameAt = some t) (ht : t ≠ 0) :
    (constructPayload (some nav) vid m r).isSome = true := by
  unfold constructPayload
  rw [hff]
  simp [ht]

/-- C10: a dispatch trigger that fires while the payload cannot be
constructed (no first frame recorded, or no `navigator` in the
environment) leaves the session state completely unchanged — in
particular `metricsSent` stays false — and afterwards a trigger on the
same session state with the first frame recorded and a navigator present
still dispatches the session's single payload, setting `metricsSent`. -/
theorem send_metrics_ineligible_noop (env : Env) (nav : NavigatorEnv) (vid : Option String)
    (pb pb2 : Bool) (m : PlaybackMetricState) (reason reason2 : String) (t : ℚ)
    (hs : m.metricsSent = false)
    (h : m.firstFrameAt = none ∨ env = none) (ht : t ≠ 0) :
    sendPlaybackMetrics env vid pb m reason = (m, none) ∧
    (sendPlaybackMetrics (some nav) vid pb2 { m with firstFrameAt := some t } reason2).1 =
      { m with firstFrameAt := some t, metricsSent := true } ∧
    (sendPlaybackMetrics (some nav) vid pb2
        { m with firstFrameAt := some t } reason2).2.isSome = true := by
  refine ⟨?_, ?_⟩
  · rcases h with hff | henv
    · exact sendPlaybackMetrics_of_firstFrame_none env vid pb m reason hff
    · subst henv
      unfold sendPlaybackMetrics
      simp [hs, constructPayload_env_none]
  · exact sendPlaybackMetrics_dispatches (some nav) vid pb2
      { m with firstFrameAt := some t } reason2 hs
      (constructPayload_isSome nav vid { m with firstFrameAt := some t } reason2 t rfl ht)

/-- C10 witness. -/
theorem send_metrics_ineligible_noop_witness :
    sendPlaybackMetrics (some navUA) none false (initialMetricState "w" 0) "ended" =
      (initialMetricState "w" 0, none) ∧
    (sendPlaybackMetrics (some navUA) none true
        { initialMetricState "w" 0 with firstFrameAt := some 5 } "unmount").1 =
      { initialMetricState "w" 0 with firstFrameAt := some 5, metricsSent := true } ∧
    (sendPlaybackMetrics (some navUA) none true
        { initialMetricState "w" 0 with firstFrameAt := some 5 } "unmount").2.isSome =
      true :=
  send_metrics_ineligible_noop (some navUA) navUA none false true
    (initialMetricState "w" 0) "ended" "unmount" 5 rfl (Or.inl rfl) (by norm_num)

/-- C2 counterexample: two HLS manifest-loading signals in a row.  The
second overwrites `manifestRequestedAt` with the later time, so the
field is not "first write wins" under a repeated manifest-loading
signal, contrary to the claim. -/
theorem manifest_requested_overwritten_counterexample :
    (step none none
        ((step none none (initPlayerState "s" 0) (.manifestLoading 1)).1)
        (.manifestLoading 2)).1.metrics.manifestRequestedAt = some 2 ∧
    some (2 : ℚ) ≠ some (1 : ℚ) := by
  exact ⟨rfl, by decide⟩

/-- C2 amended: the media-element handlers (`loadstart`,
`loadedmetadata`, `play`, `playing`) write their timestamp fields
first-write-wins, and `playbackRequestedAt` and `firstFrameAt`, once
set, are never changed by any signal; but the HLS `MANIFEST_LOADING`
and `MANIFEST_LOADED` handlers overwrite `manifestRequestedAt` and
`manifestLoadedAt` unconditionally with the current time on every
signal. -/
theorem timestamp_first_write_amended (env : Env) (vid : Option String) (s : PlayerState)
    (t : ℚ) (d : Option String) (rt : Option PerformanceResourceTiming)
    (sig : PlayerSignal) (v w : ℚ)
    (hp : s.metrics.playbackRequestedAt = some v)
    (hf : s.metrics.firstFrameAt = some w) :
    (step env vid s (.loadStart t)).1.metrics.manifestRequestedAt =
      some (s.metrics.manifestRequestedAt.getD t) ∧
    (step env vid s (.loadedMetadata t rt)).1.metrics.manifestLoadedAt =
      some (s.metrics.manifestLoadedAt.getD t) ∧
    (step env vid s (.play t)).1.metrics.playbackRequestedAt =
      some (s.metrics.playbackRequestedAt.getD t) ∧
    (step env vid s (.playing t)).1.metrics.firstFrameAt =
      some (s.metrics.firstFrameAt.getD t) ∧
    (step env vid s (.manifestLoading t)).1.metrics.manifestRequestedAt = some t ∧
    (step env vid s (.manifestLoaded t d rt)).1.metrics.manifestLoadedAt = some t ∧
    (step env vid s sig).1.metrics.playbackRequestedAt = some v ∧
    (step env vid s sig).1.metrics.firstFrameAt = some w := by
  have hpres : (step env vid s sig).1.metrics.playbackRequestedAt = some v ∧
      (step env vid s sig).1.metrics.firstFrameAt = some w := by
    cases sig <;> (simp only [step]; repeat' split) <;> simp_all
  refine ⟨by simp [step], by simp [step], by simp [step], by simp [step], by simp [step],
    ?_, hpres.1, hpres.2⟩
  cases d <;> simp [step]

/-- Concrete session state with `playbackRequestedAt` and `firstFrameAt`
already recorded, used by the C2 witness. -/
def sFirstWrite : PlayerState :=
  { metrics :=
      { initialMetricState "w" 0 with
        manifestRequestedAt := some 1
        manifestLoadedAt := some 2
        playbackRequestedAt := some 4
        firstFrameAt := some 5 }
    ui := initialUIState }

/-- C2 witness. -/
theorem timestamp_first_write_amended_witness :
    (step none none sFirstWrite (.loadStart 7)).1.metrics.manifestRequestedAt = some 1 ∧
    (step none none sFirstWrite (.loadedMetadata 7 none)).1.metrics.manifestLoadedAt =
      some 2 ∧
    (step none none sFirstWrite (.play 7)).1.metrics.playbackRequestedAt = some 4 ∧
    (step none none sFirstWrite (.playing 7)).1.metrics.firstFrameAt = some 5 ∧
    (step none none sFirstWrite (.manifestLoading 7)).1.metrics.manifestRequestedAt =
      some 7 ∧
    (step none none sFirstWrite
        (.manifestLoaded 7 none none)).1.metrics.manifestLoadedAt = some 7 ∧
    (step none none sFirstWrite .pause).1.metrics.playbackRequestedAt = some 4 ∧
    (step none none sFirstWrite .pause).1.metrics.firstFrameAt = some 5 :=
  timestamp_first_write_amended none none sFirstWrite 7 none none .pause 4 5 rfl rfl

/-- C3 counterexample: from a fresh session, a first accepted `waiting`
stall signal enters Buffering, and a second identical `waiting` signal
arriving while still in Buffering (no intervening `playing`) increments
the counter again, to 2 — the signal-level handler does not dedupe one
buffering episode. -/
theorem buffering_double_count_counterexample :
    (run none none (initPlayerState "s" 0) [.waiting false 2]).ui.isBuffering = true ∧
    (run none none (initPlayerState "s" 0)
        [.waiting false 2, .waiting false 2]).metrics.bufferingEvents = 2 := by
  decide

/-- C3 amended: `bufferingEvents` increments on every accepted stall
signal — `waiting` while not paused with readiness below 3, and
`stalled` while not paused — unconditionally in the current state, so
repeated accepted signals during a single buffering episode (no
intervening Playing) each increment the counter. -/
theorem buffering_events_increment_amended (env : Env) (vid : Option String)
    (s : PlayerState) (rs rs2 : Nat) (h : rs < 3) :
    (step env vid s (.waiting false rs)).1.metrics.bufferingEvents =
      s.metrics.bufferingEvents + 1 ∧
    (step env vid s (.waiting false rs)).1.ui.isBuffering = true ∧
    (step env vid s (.stalled false rs2)).1.metrics.bufferingEvents =
      s.metrics.bufferingEvents + 1 ∧
    (step env vid s (.stalled false rs2)).1.ui.isBuffering = true := by
  simp [step, h]

/-- C3 witness: a second accepted waiting signal while already in
Buffering still increments. -/
theorem buffering_events_increment_amended_witness :
    (step none none (run none none (initPlayerState "c" 0) [.waiting false 2])
        (.waiting false 2)).1.metrics.bufferingEvents = 2 ∧
    (step none none (run none none (initPlayerState "c" 0) [.waiting false 2])
        (.waiting false 2)).1.ui.isBuffering = true ∧
    (step none none (run none none (initPlayerState "c" 0) [.waiting false 2])
        (.stalled false 0)).1.metrics.bufferingEvents = 2 ∧
    (step none none (run none none (initPlayerState "c" 0) [.waiting false 2])
        (.stalled false 0)).1.ui.isBuffering = true :=
  buffering_events_increment_amended none none
    (run none none (initPlayerState "c" 0) [.waiting false 2]) 2 0 (by decide)

/-- C4 counterexample: a `stalled` signal while not paused with
readiness 4 (well above the threshold) still sets `isBuffering` — the
stalled handler has no readiness guard, contrary to the claim that no
stall signal at readiness at least 3 enters Buffering. -/
theorem stalled_ready_counterexample :
    (initPlayerState "s" 0).ui.isBuffering = false ∧
    (step none none (initPlayerState "s" 0) (.stalled false 4)).1.ui.isBuffering = true :=
  ⟨rfl, rfl⟩

/-- C4 amended: only the `waiting` handler is readiness-filtered — a
`waiting` signal while not paused with readiness at least 3 is a
complete no-op — while a `stalled` signal while not paused always
enters Buffering regardless of readiness. -/
theorem stall_readiness_guard_amended (env : Env) (vid : Option String) (s : PlayerState)
    (rs : Nat) (h : 3 ≤ rs) :
    step env vid s (.waiting false rs) = (s, none) ∧
    (step env vid s (.stalled false rs)).1.ui.isBuffering = true := by
  have hn : ¬ rs < 3 := by omega
  exact ⟨by simp [step, hn], by simp [step]⟩

/-- C4 witness. -/
theorem stall_readiness_guard_amended_witness :
    step none none (initPlayerState "d" 0) (.waiting false 4) =
      (initPlayerState "d" 0, none) ∧
    (step none none (initPlayerState "d" 0) (.stalled false 4)).1.ui.isBuffering = true :=
  stall_readiness_guard_amended none none (initPlayerState "d" 0) 4 (by decide)

/-- One quality level of the runtime inventory (only the height is read
by the switch policy). -/
structure Level where
  height : Nat
deriving DecidableEq

/-- The runtime (hls.js) fields read and written by `handleQualityChange`. -/
structure HlsView where
  levels : List Level
  currentLevel : Int
  nextLevel : Int
  loadLevel : Int
deriving DecidableEq

/-- The media-element fields read by `handleQualityChange`. -/
structure VideoView where
  paused : Bool
  currentTime : ℚ
deriving DecidableEq

/-- The `BUFFER_APPENDED` one-shot handler registered by the upgrade
path: on the next buffer-append it sets `video.currentTime` to
`restoreTime` and, when `resumePlayback` is true, calls `video.play()`.
`none` means no such handler was registered. -/
structure RestoreAction where
  restoreTime : ℚ
  resumePlayback : Bool
deriving DecidableEq

/-- Controller state: the bound runtime instance (absent for progressive
or native-HLS sources), the media element, the displayed quality
selection (`quality` React state, the value shown by the selector), and
the auto-mode resolved label. -/
structure QualityControllerState where
  hls : Option HlsView
  video : Option VideoView
  quality : String
  autoQualityLabel : Option String
deriving DecidableEq

/-- Remove the first occurrence of the character `p`, modelling
`newQuality.replace("p", "")` (string-pattern `replace` replaces only
the first occurrence). -/
def removeFirstP : List Char → List Char
  | [] => []
  | c :: cs => if c = 'p' then cs else c :: removeFirstP cs

/-- Leading-digit parse modelling `parseInt` on the label strings in
play (no leading whitespace or sign in any quality label); `none` plays
the role of `NaN`.  48 is the code of the digit zero. -/
def jsParseNat (cs : List Char) : Option Nat :=
  let ds := cs.takeWhile Char.isDigit
  if ds.isEmpty then none
  else some (ds.foldl (fun n c => 10 * n + (c.toNat - 48)) 0)

/-- Model of `parseInt(newQuality.replace("p", ""))`. -/
def parseHeightLabel (q : String) : Option Nat := jsParseNat (removeFirstP q.toList)

/-- Model of `levels.findIndex((level) => level.height === targetHeight)`:
`-1` when not found, and a `NaN` target (failed parse) matches no
level. -/
def findLevelIndex (levels : List Level) (target : Option Nat) : Int :=
  match target with
  | none => -1
  | some h =>
    match levels.findIdx? (fun l => l.height == h) with
    | some i => (i : Int)
    | none => -1

/-- JavaScript indexing `levels[i]` for a possibly negative index. -/
def levelAt (levels : List Level) (i : Int) : Option Level :=
  if 0 ≤ i then levels.get? i.toNat else none

/-- The `currentManualIndex` cascade of `handleQualityChange`:
`currentLevel` if set, else `loadLevel`, else `nextLevel`, else `-1`. -/
def currentManualIndex (hls : HlsView) : Int :=
  if 0 ≤ hls.currentLevel then hls.currentLevel
  else if 0 ≤ hls.loadLevel then hls.loadLevel
  else if 0 ≤ hls.nextLevel then hls.nextLevel
  else -1

/-- The `currentHeight` computation:
`currentManualIndex >= 0 && levels[currentManualIndex] ?
levels[currentManualIndex].height ?? 0 : 0`. -/
def currentManualHeight (hls : HlsView) : Nat :=
  match levelAt hls.levels (currentManualIndex hls) with
  | some l => l.height
  | none => 0

/-- Embedding of `handleQualityChange`.  Returns the new controller
state and the registered buffer-append restore handler, if any.  When
the parse of the requested label fails (`NaN`), `findIndex` can match
no level, so the call stops after the label update exactly as in the
`levelIndex === -1` early return. -/
def handleQualityChange (s : QualityControllerState) (newQuality : String) :
    QualityControllerState × Option RestoreAction :=
  match s.hls with
  | none => (s, none)
  | some hls =>
    let s1 := { s with quality := newQuality }
    if newQuality = "auto" then
      ({ s1 with
          hls := some { hls with currentLevel := -1, loadLevel := -1, nextLevel := -1 }
          autoQualityLabel := none }, none)
    else
      match parseHeightLabel newQuality with
      | none => (s1, none)
      | some targetHeight =>
        let levelIndex := findLevelIndex hls.levels (some targetHeight)
        if levelIndex = -1 then (s1, none)
        else
          let currentHeight := currentManualHeight hls
          if 0 < currentHeight ∧ currentHeight < targetHeight then
            let resumePlayback :=
              match s.video with
              | some v => !v.paused
              | none => false
            let currentPlaybackTime : Option ℚ := s.video.map (·.currentTime)
            ({ s1 with
                hls := some
                  { hls with
                    currentLevel := levelIndex
                    nextLevel := levelIndex
                    loadLevel := levelIndex }
                autoQualityLabel := none },
              currentPlaybackTime.map fun tpos =>
                { restoreTime := tpos, resumePlayback := resumePlayback })
          else
            let videoPaused :=
              match s.video with
              | some v => v.paused
              | none => false
            ({ s1 with
                hls := some
                  { hls with
                    nextLevel := levelIndex
                    loadLevel := levelIndex
                    currentLevel := if videoPaused then levelIndex else hls.currentLevel }
                autoQualityLabel := none }, none)

/-- C9: with no adaptive runtime bound (progressive file or native HLS),
`handleQualityChange` is an immediate no-op for every requested label:
the state, including the displayed quality label, is returned unchanged
and no restore handler is registered. -/
theorem quality_change_without_hls_noop (s : QualityControllerState) (q : String)
    (h : s.hls = none) : handleQualityChange s q = (s, none) := by
  unfold handleQualityChange
  rw [h]

/-- Controller state with no runtime instance bound, for the C9
witness. -/
def sNoHls : QualityControllerState :=
  { hls := none
    video := some { paused := false, currentTime := 7 }
    quality := "auto"
    autoQualityLabel := none }

/-- C9 witness. -/
theorem quality_change_without_hls_noop_witness :
    handleQualityChange sNoHls "1080p" = (sNoHls, none) :=
  quality_change_without_hls_noop sNoHls "1080p" rfl

/-- Runtime with a single 720p level, for the C8 counterexample. -/
def hlsOnly720 : HlsView :=
  { levels := [{ height := 720 }], currentLevel := -1, nextLevel := -1, loadLevel := -1 }

def sMissingLevel : QualityControllerState :=
  { hls := some hlsOnly720
    video := some { paused := false, currentTime := 3 }
    quality := "auto"
    autoQualityLabel := some "720p" }

/-- C8 counterexample: requesting `1080p` when only a 720p level exists
leaves every runtime level field untouched and registers nothing, but
the displayed quality selection (the `quality` state driving the
selector) is set to the requested label before the lookup, so the
observable selection does change — contradicting the claim that it is
left unchanged. -/
theorem quality_noop_label_counterexample :
    (handleQualityChange sMissingLevel "1080p").1.quality = "1080p" ∧
    sMissingLevel.quality = "auto" ∧
    (handleQualityChange sMissingLevel "1080p").1.hls = sMissingLevel.hls ∧
    (handleQualityChange sMissingLevel "1080p").2 = none := by
  decide

/-- C8 amended: when the requested height label matches no level, the
runtime level fields, the auto label and the restore behavior are all
untouched and no error is surfaced, but the displayed quality selection
is updated to the requested label (the label write precedes the
lookup). -/
theorem quality_missing_level_amended (s : QualityControllerState) (hls : HlsView)
    (q : String) (hh : s.hls = some hls) (hq : q ≠ "auto")
    (hmiss : findLevelIndex hls.levels (parseHeightLabel q) = -1) :
    handleQualityChange s q = ({ s with quality := q }, none) := by
  simp only [handleQualityChange, hh]
  rw [if_neg hq]
  cases hp : parseHeightLabel q with
  | none => simp
  | some target =>
    rw [hp] at hmiss
    simp [hmiss]

/-- C8 witness. -/
theorem quality_missing_level_amended_witness :
    handleQualityChange sMissingLevel "540p" =
      ({ sMissingLevel with quality := "540p" }, none) :=
  quality_missing_level_amended sMissingLevel hlsOnly720 "540p" rfl (by decide) (by decide)

/-- Two-level runtime (1080p at index 0, 480p at index 1) currently on
the 480p level, with a paused element at position 10, for C6. -/
def hlsTwoLevels : HlsView :=
  { levels := [{ height := 1080 }, { height := 480 }]
    currentLevel := 1
    nextLevel := 1
    loadLevel := 1 }

def sPausedUpgrade : QualityControllerState :=
  { hls := some hlsTwoLevels
    video := some { paused := true, currentTime := 10 }
    quality := "480p"
    autoQualityLabel := none }

/-- C6 counterexample: upgrading from 480p to 1080p while paused does
switch the current level immediately (index 0), but it also registers a
buffer-append restore handler carrying the captured position 10 — the
handler will rewrite `currentTime` on the next buffer append even
though playback was never running (only the `play()` resume is
skipped).  This contradicts the claim that no buffer-append-driven
position restore takes effect. -/
theorem paused_upgrade_restore_counterexample :
    (handleQualityChange sPausedUpgrade "1080p").1.hls =
      some { hlsTwoLevels with currentLevel := 0, nextLevel := 0, loadLevel := 0 } ∧
    (handleQualityChange sPausedUpgrade "1080p").2 =
      some { restoreTime := 10, resumePlayback := false } := by
  decide

/-- C6 amended: on an upgrade while paused the runtime's current, next
and load levels all switch immediately to the target index, and a
buffer-append position-restore handler is still registered with the
captured playback position — but with playback resumption disabled,
since the element was paused. -/
theorem paused_upgrade_amended (s : QualityControllerState) (hls : HlsView) (v : VideoView)
    (q : String) (target idx : Nat)
    (hh : s.hls = some hls) (hv : s.video = some v) (hpause : v.paused = true)
    (hq : q ≠ "auto") (hp : parseHeightLabel q = some target)
    (hi : hls.levels.findIdx? (fun l => l.height == target) = some idx)
    (hch : 0 < currentManualHeight hls)
    (hgt : currentManualHeight hls < target) :
    handleQualityChange s q =
      ({ s with
          quality := q
          autoQualityLabel := none
          hls := some
            { hls with
              currentLevel := (idx : Int)
              nextLevel := (idx : Int)
              loadLevel := (idx : Int) } },
        some { restoreTime := v.currentTime, resumePlayback := false }) := by
  have hidx : findLevelIndex hls.levels (some target) = (idx : Int) := by
    simp only [findLevelIndex, hi]
  have hne : ¬ ((idx : Int) = -1) := by omega
  simp only [handleQualityChange, hh]
  rw [if_neg hq]
  simp [hp, hidx, hne, hch, hgt, hv, hpause]

/-- C6 witness: the amended behavior at the concrete paused-upgrade
state. -/
theorem paused_upgrade_amended_witness :
    handleQualityChange sPausedUpgrade "1080p" =
      ({ sPausedUpgrade with
          quality := "1080p"
          autoQualityLabel := none
          hls := some
            { hlsTwoLevels with currentLevel := 0, nextLevel := 0, loadLevel := 0 } },
        some { restoreTime := 10, resumePlayback := false }) := by
  simpa using paused_upgrade_amended sPausedUpgrade hlsTwoLevels
    { paused := true, currentTime := 10 } "1080p" 1080 0 rfl rfl rfl (by decide) (by decide)
    (by decide) (by decide) (by decide)

/-- Two-level runtime currently on 1080p (index 0) with a playing
element at position 42.5, for C7. -/
def hlsPlaying : HlsView :=
  { levels := [{ height := 1080 }, { height := 480 }]
    currentLevel := 0
    nextLevel := -1
    loadLevel := -1 }

def sPlayingDowngrade : QualityControllerState :=
  { hls := some hlsPlaying
    video := some { paused := false, currentTime := 85 / 2 }
    quality := "1080p"
    autoQualityLabel := none }

/-- C7: a downgrade or equal-height request sets only the runtime's next
and load levels to the target index, registers no position-restore
handler, and leaves the current level unchanged when the element is
playing; when the element is paused the current level is additionally
switched immediately. -/
theorem downgrade_schedules_next_fragment (s : QualityControllerState) (hls : HlsView)
    (v : VideoView) (q : String) (target idx : Nat)
    (hh : s.hls = some hls) (hv : s.video = some v) (hq : q ≠ "auto")
    (hp : parseHeightLabel q = some target)
    (hi : hls.levels.findIdx? (fun l => l.height == target) = some idx)
    (_hch : 0 < currentManualHeight hls)
    (hle : target ≤ currentManualHeight hls) :
    handleQualityChange s q =
      ({ s with
          quality := q
          autoQualityLabel := none
          hls := some
            { hls with
              nextLevel := (idx : Int)
              loadLevel := (idx : Int)
              currentLevel := if v.paused then (idx : Int) else hls.currentLevel } },
        none) := by
  have hidx : findLevelIndex hls.levels (some target) = (idx : Int) := by
    simp only [findLevelIndex, hi]
  have hne : ¬ ((idx : Int) = -1) := by omega
  have hcond : ¬ (0 < currentManualHeight hls ∧ currentManualHeight hls < target) := by
    rintro ⟨-, hlt⟩
    omega
  simp only [handleQualityChange, hh]
  rw [if_neg hq]
  simp [hp, hidx, hne, hcond, hv]

/-- C7 witness: downgrading from 1080p to 480p while playing at 42.5
seconds sets next and load levels to index 1, keeps the current level
at 0 and registers no restore. -/
theorem downgrade_schedules_next_fragment_witness :
    handleQualityChange sPlayingDowngrade "480p" =
      ({ sPlayingDowngrade with
          quality := "480p"
          autoQualityLabel := none
          hls := some { hlsPlaying with nextLevel := 1, loadLevel := 1, currentLevel := 0 } },
        none) := by
  simpa using downgrade_schedules_next_fragment sPlayingDowngrade hlsPlaying
    { paused := false, currentTime := 85 / 2 } "480p" 480 1 rfl rfl (by decide) (by decide)
    (by decide) (by decide) (by decide)

end VideoStreamFE
